import Mathlib

/-!
Shallow embedding of `internal/storage/storage.go` from the gotosocial
repository: the `Driver` wrapper around a key-value store with S3
presigned-URL support, and the configuration-driven `AutoConfig` factory.

External collaborators (the minio S3 client, `go-store`'s `OpenS3` /
`OpenDisk` / `kv.New`, and the process-wide configuration package) are
modelled as explicit parameters or small records; Go standard-library
helpers used by the fragment (`path.Ext`, `path.Join`, `path.Clean`,
`mime.TypeByExtension`) are embedded from their stdlib behaviour.
-/

namespace GtsStorage

/-- A request context, as passed to the presign collaborator.  The fragment
only forwards it, so we model it as a flag record (cancelled or not). -/
structure Context where
  cancelled : Bool
deriving Repr, DecidableEq

/-- A `*url.URL` value as returned by the minio presign call.  The fragment
never inspects it, so an opaque wrapper around its rendered form suffices. -/
structure Url where
  raw : String
deriving Repr, DecidableEq

/-- Go error values as this fragment builds them: either a collaborator's
base error, or `fmt.Errorf("<prefix>: %w", err)` wrapping. -/
inductive GoError where
  | msg : String → GoError
  | wrap : String → GoError → GoError
deriving Repr, DecidableEq

/-- The rendered `Error()` string of a Go error built by this fragment:
`fmt.Errorf("p: %w", e)` renders as `"p: " ++ e.Error()`. -/
def GoError.message : GoError → String
  | .msg s => s
  | .wrap p e => p ++ ": " ++ e.message

/-- `time.Hour` in nanoseconds (Go `time.Duration` units). -/
def timeHour : Nat := 3600 * 1000000000

/- ### Go standard library: `path.Ext` -/

/-- Helper for `pathExt`: scans the reversed character list of the path,
accumulating the candidate extension; stops at the first `'.'` (returning
the extension including the dot) or at a `'/'` (no extension). -/
def pathExtRev : List Char → List Char → String
  | [], _ => ""
  | c :: rest, acc =>
    if c = '/' then ""
    else if c = '.' then String.mk (c :: acc)
    else pathExtRev rest (c :: acc)

/-- Go `path.Ext`: the suffix beginning at the final dot in the final
slash-separated element of the path; empty if there is no dot. -/
def pathExt (p : String) : String :=
  pathExtRev p.data.reverse []

/- ### Go standard library: `mime.TypeByExtension` (builtin table) -/

/-- Go `mime` package's builtin extension → MIME-type table
(`builtinTypesLower` in `mime/type.go`). -/
def builtinTypesLower : List (String × String) :=
  [ (".avif", "image/avif")
  , (".css", "text/css; charset=utf-8")
  , (".gif", "image/gif")
  , (".htm", "text/html; charset=utf-8")
  , (".html", "text/html; charset=utf-8")
  , (".jpeg", "image/jpeg")
  , (".jpg", "image/jpeg")
  , (".js", "text/javascript; charset=utf-8")
  , (".json", "application/json")
  , (".mjs", "text/javascript; charset=utf-8")
  , (".pdf", "application/pdf")
  , (".png", "image/png")
  , (".svg", "image/svg+xml")
  , (".wasm", "application/wasm")
  , (".webp", "image/webp")
  , (".xml", "text/xml; charset=utf-8") ]

/-- ASCII lower-casing of one character, as `TypeByExtension` performs
byte-wise on the extension before its lookup. -/
def asciiLowerChar (c : Char) : Char :=
  match c with
  | 'A' => 'a' | 'B' => 'b' | 'C' => 'c' | 'D' => 'd' | 'E' => 'e'
  | 'F' => 'f' | 'G' => 'g' | 'H' => 'h' | 'I' => 'i' | 'J' => 'j'
  | 'K' => 'k' | 'L' => 'l' | 'M' => 'm' | 'N' => 'n' | 'O' => 'o'
  | 'P' => 'p' | 'Q' => 'q' | 'R' => 'r' | 'S' => 's' | 'T' => 't'
  | 'U' => 'u' | 'V' => 'v' | 'W' => 'w' | 'X' => 'x' | 'Y' => 'y'
  | 'Z' => 'z'
  | other => other

/-- ASCII lower-casing of a string. -/
def asciiLower (s : String) : String :=
  String.mk (s.data.map asciiLowerChar)

/-- Go `mime.TypeByExtension` restricted to the builtin table: a
case-insensitive lookup, returning `""` for an unknown or empty extension. -/
def mimeTypeByExtension (ext : String) : String :=
  match builtinTypesLower.lookup (asciiLower ext) with
  | some t => t
  | none => ""

/- ### Go standard library: `path.Clean` and `path.Join` -/

/-- Split a character list on `'/'`, keeping empty segments, as
`strings.Split(p, "/")` does.  The accumulator holds the current segment
reversed. -/
def splitSlash : List Char → List Char → List String
  | [], acc => [String.mk acc.reverse]
  | c :: rest, acc =>
    if c = '/' then String.mk acc.reverse :: splitSlash rest []
    else splitSlash rest (c :: acc)

/-- Join segments with `'/'` separators, as `strings.Join(segs, "/")`. -/
def joinSlash : List String → String
  | [] => ""
  | [s] => s
  | s :: t :: rest => s ++ "/" ++ joinSlash (t :: rest)

/-- Segment-stack form of Go `path.Clean`'s Plan 9 algorithm: process the
slash-separated segments left to right.  Empty and `"."` segments are
dropped; `".."` pops a previous real segment, is dropped at the root of a
rooted path, and is kept for a relative path; any other segment is pushed.
The stack is kept in reverse order. -/
def cleanSegments (rooted : Bool) : List String → List String → List String
  | stack, [] => stack
  | stack, seg :: rest =>
    if seg = "" ∨ seg = "." then cleanSegments rooted stack rest
    else if seg = ".." then
      match stack with
      | top :: stk =>
        if top = ".." then cleanSegments rooted (".." :: top :: stk) rest
        else cleanSegments rooted stk rest
      | [] =>
        if rooted then cleanSegments rooted [] rest
        else cleanSegments rooted [".."] rest
    else cleanSegments rooted (seg :: stack) rest

/-- Go `path.Clean`: the shortest lexically-equivalent path. -/
def pathClean (p : String) : String :=
  if p = "" then "."
  else
    let rooted := match p.data with
      | c :: _ => c = '/'
      | [] => false
    let stack := (cleanSegments rooted [] (splitSlash p.data [])).reverse
    let body := joinSlash stack
    if rooted then
      if body = "" then "/" else "/" ++ body
    else
      if body = "" then "." else body

/-- Go `path.Join`: joins the non-empty elements with slashes and cleans
the result; all-empty input yields `""`. -/
def pathJoin (elems : List String) : String :=
  let nonEmpty := elems.filter (fun e => e ≠ "")
  if nonEmpty.isEmpty then "" else pathClean (joinSlash nonEmpty)

/- ### Collaborator data model -/

/-- The minio S3 client held by an open `storage.S3Storage` handle.  Its
one capability used here is `PresignedGetObject(ctx, bucket, key, expiry,
queryValues)`, returning a Go pair `(url, err)`; per the minio contract the
url is nil exactly when an error is returned, which the model leaves to
hypotheses where needed. -/
structure S3Client where
  presign : Context → String → String → Nat → List (String × List String) →
    Option Url × Option GoError

/-- An open `storage.S3Storage` handle: the fragment only reaches its
client via `.Client()`. -/
structure S3Storage where
  client : S3Client

/-- An open `storage.DiskStorage` handle, opaque to this fragment. -/
structure DiskStorage where
  handle : Nat

/-- The `storage.Storage` interface value held by a `Driver`: an open S3
handle, an open disk handle, or the nil interface (zero-value `Driver`). -/
inductive Storage where
  | s3 : S3Storage → Storage
  | disk : DiskStorage → Storage
  | null : Storage

/-- A `*kv.KVStore` as built by `kv.New`: it wraps exactly one open backend
storage handle. -/
structure KVStore where
  wrapped : Storage

/-- `kv.New(st)`: wrap a backend handle in a generic key-value store. -/
def kvNew (st : Storage) : KVStore := ⟨st⟩

/- ### The fragment's own data model -/

/-- `storage.Driver`: wraps a `*kv.KVStore` (nil-able pointer, hence
`Option`) plus the raw backend handle and the two S3-only parameters. -/
structure Driver where
  KVStore : Option KVStore
  Storage : Storage
  Proxy : Bool
  Bucket : String

/-- The zero-value `storage.Driver`: nil KVStore pointer, nil Storage
interface, false, empty string. -/
def zeroDriver : Driver :=
  { KVStore := none, Storage := Storage.null, Proxy := false, Bucket := "" }

/-- `Driver.URL`: return a presigned GET object URL, but only when running
on S3 storage with proxying disabled.  A failed presign request is ignored
(`url, _ :=`), falling back to a nil URL. -/
def Driver.URL (d : Driver) (ctx : Context) (key : String) : Option Url :=
  match d.Storage with
  | Storage.s3 s3 =>
    if d.Proxy then none
    else
      (s3.client.presign ctx d.Bucket key timeHour
        [("response-content-type", [mimeTypeByExtension (pathExt key)])]).1
  | Storage.disk _ => none
  | Storage.null => none

/-- The process-wide configuration values this fragment reads
(`config.GetStorage*`). -/
structure Config where
  backend : String
  s3Endpoint : String
  s3AccessKey : String
  s3SecretKey : String
  s3UseSSL : Bool
  s3BucketName : String
  s3Proxy : Bool
  localBasePath : String

/-- The `storage.S3Config` record passed to `storage.OpenS3`, with the
minio credentials (`credentials.NewStaticV4(access, secret, "")`) and TLS
flag inlined; `GetOpts`/`PutOpts`/`StatOpts`/`RemoveOpts` are
zero-value option records and carry no data. -/
structure S3Config where
  credsAccessKeyID : String
  credsSecretAccessKey : String
  credsSessionToken : String
  secure : Bool
  putChunkSize : Nat
  listSize : Nat
deriving Repr, DecidableEq

/-- The `storage.DiskConfig` record passed to `storage.OpenDisk`. -/
structure DiskConfig where
  lockFile : String
deriving Repr, DecidableEq

/-- The `storage.OpenS3(endpoint, bucket, cfg)` collaborator. -/
def OpenS3Fn := String → String → S3Config → Except GoError S3Storage

/-- The `storage.OpenDisk(basePath, cfg)` collaborator. -/
def OpenDiskFn := String → DiskConfig → Except GoError DiskStorage

/-- The `switch backend` statement of `AutoConfig`: select and open the
backend storage implementation `st`, or fail. -/
def autoConfigStorage (cfg : Config) (openS3 : OpenS3Fn) (openDisk : OpenDiskFn) :
    Except GoError Storage :=
  if cfg.backend = "s3" then
    match openS3 cfg.s3Endpoint cfg.s3BucketName
      { credsAccessKeyID := cfg.s3AccessKey
      , credsSecretAccessKey := cfg.s3SecretKey
      , credsSessionToken := ""
      , secure := cfg.s3UseSSL
      , putChunkSize := 5 * 1024 * 1024
      , listSize := 200 } with
    | Except.error err => Except.error (GoError.wrap "error opening s3 storage" err)
    | Except.ok s3 => Except.ok (Storage.s3 s3)
  else if cfg.backend = "local" then
    match openDisk cfg.localBasePath
      { lockFile := pathJoin [cfg.localBasePath, "store.lock"] } with
    | Except.error err => Except.error (GoError.wrap "error opening disk storage" err)
    | Except.ok disk => Except.ok (Storage.disk disk)
  else
    Except.error (GoError.msg ("invalid storage backend: " ++ cfg.backend))

/-- `storage.AutoConfig()`: select and open the configured backend, then
wrap it in a key-value store and return the `Driver`. -/
def autoConfig (cfg : Config) (openS3 : OpenS3Fn) (openDisk : OpenDiskFn) :
    Except GoError Driver :=
  match autoConfigStorage cfg openS3 openDisk with
  | Except.error err => Except.error err
  | Except.ok st =>
    Except.ok
      { KVStore := some (kvNew st)
      , Proxy := cfg.s3Proxy
      , Bucket := cfg.s3BucketName
      , Storage := st }

/- ### Concrete collaborators for evaluating the model -/

/-- A presign collaborator that always succeeds with a fixed URL. -/
def testPresignOk : S3Client :=
  ⟨fun _ _ _ _ _ => (some ⟨"https://s3.test/presigned"⟩, none)⟩

/-- A presign collaborator that always fails (for example because the
supplied context is already cancelled), returning a nil URL and an error,
as the minio contract prescribes. -/
def testPresignFail : S3Client :=
  ⟨fun _ _ _ _ _ => (none, some (GoError.msg "context canceled"))⟩

/-- An `OpenS3` collaborator that always succeeds. -/
def testOpenS3 : OpenS3Fn := fun _ _ _ => Except.ok ⟨testPresignOk⟩

/-- An `OpenDisk` collaborator that always succeeds. -/
def testOpenDisk : OpenDiskFn := fun _ _ => Except.ok ⟨0⟩

/-- An `OpenDisk` collaborator that succeeds only when called on the base
path `/gotosocial/storage` with the lock file directly inside it. -/
def testOpenDiskCheck : OpenDiskFn := fun basePath dcfg =>
  if basePath = "/gotosocial/storage" ∧
      dcfg.lockFile = "/gotosocial/storage/store.lock" then
    Except.ok ⟨7⟩
  else
    Except.error (GoError.msg "unexpected arguments")

/-- An `OpenS3` collaborator that succeeds only when called on the endpoint
`s3.example.test` and bucket `media` with the exact client configuration
`AutoConfig` is specified to build. -/
def testOpenS3Check : OpenS3Fn := fun endpoint bucket scfg =>
  if endpoint = "s3.example.test" ∧ bucket = "media" ∧
      scfg = ⟨"AKID", "SECRET", "", true, 5242880, 200⟩ then
    Except.ok ⟨testPresignOk⟩
  else
    Except.error (GoError.msg "unexpected arguments")

/-- A configuration selecting the local backend, with junk in the unused
S3 connection fields. -/
def cfgLocal : Config :=
  ⟨"local", "unused-endpoint", "unused-access", "unused-secret", false,
    "gts", true, "/gotosocial/storage"⟩

/-- A configuration selecting the S3 backend. -/
def cfgS3 : Config :=
  ⟨"s3", "s3.example.test", "AKID", "SECRET", true, "media", false, ""⟩

/-- A local-backend configuration; differs from `cfgLocalB` exactly in the
four S3 connection values. -/
def cfgLocalA : Config :=
  ⟨"local", "ep-a", "ak-a", "sk-a", true, "gts", true, "/gotosocial/storage"⟩

/-- A local-backend configuration; differs from `cfgLocalA` exactly in the
four S3 connection values. -/
def cfgLocalB : Config :=
  ⟨"local", "ep-b", "ak-b", "sk-b", false, "gts", true, "/gotosocial/storage"⟩

/- ### Helper lemmas -/

/-- Any key ending in `".png"` has path extension `".png"`, whatever comes
before it: the scan from the right hits that dot before any slash. -/
theorem pathExt_append_png (s : String) : pathExt (s ++ ".png") = ".png" := by
  unfold pathExt
  have hd : (s ++ ".png").data = s.data ++ ('.' :: 'p' :: 'n' :: 'g' :: []) := by
    simp [String.data_append]
  rw [hd, List.reverse_append]
  simp [pathExtRev]

/- ### Claim theorems -/

/-- C1: On an S3-backed driver with proxying disabled, `URL` issues the
presign request for the given key in the configured bucket with a fixed
one-hour expiry and a `response-content-type` query value derived from the
key's file extension; keys ending in `.png` give `image/png`, and an
unrecognized or absent extension gives the empty content type without
failing the call. -/
theorem URL_s3_presign_request (kvs : Option KVStore) (c : S3Client)
    (bucket : String) (ctx : Context) (key : String) :
    (Driver.mk kvs (Storage.s3 ⟨c⟩) false bucket).URL ctx key =
      (c.presign ctx bucket key timeHour
        [("response-content-type", [mimeTypeByExtension (pathExt key)])]).1
    ∧ (∀ s : String, mimeTypeByExtension (pathExt (s ++ ".png")) = "image/png")
    ∧ (∀ e : String, builtinTypesLower.lookup (asciiLower e) = none →
        mimeTypeByExtension e = "")
    ∧ mimeTypeByExtension (pathExt "keywithoutextension") = "" := by
  refine ⟨rfl, ?_, ?_, by decide⟩
  · intro s
    rw [pathExt_append_png]
    decide
  · intro e he
    simp [mimeTypeByExtension, he]

/-- Witness for C1: a concrete always-succeeding client, a `.png` key, and
an unknown extension. -/
theorem URL_s3_presign_request_witness :
    (Driver.mk none (Storage.s3 ⟨testPresignOk⟩) false "media").URL
        ⟨false⟩ "avatars/foo.png" = some ⟨"https://s3.test/presigned"⟩
    ∧ mimeTypeByExtension (pathExt ("avatars/foo" ++ ".png")) = "image/png"
    ∧ mimeTypeByExtension ".zzz" = "" := by
  have h := URL_s3_presign_request none testPresignOk "media" ⟨false⟩
    "avatars/foo.png"
  refine ⟨?_, h.2.1 "avatars/foo", h.2.2.1 ".zzz" (by decide)⟩
  rw [h.1]
  rfl

/-- C2: `URL` returns nil on every driver whose backend is the disk
implementation or the nil interface, and on every S3-backed driver with
the proxy flag set, for every context and key, uniformly in the client —
so no presign request can influence the result. -/
theorem URL_nil_without_plain_s3 :
    (∀ (kvs : Option KVStore) (dsk : DiskStorage) (p : Bool) (b : String)
        (ctx : Context) (key : String),
        (Driver.mk kvs (Storage.disk dsk) p b).URL ctx key = none)
    ∧ (∀ (kvs : Option KVStore) (p : Bool) (b : String)
        (ctx : Context) (key : String),
        (Driver.mk kvs Storage.null p b).URL ctx key = none)
    ∧ (∀ (kvs : Option KVStore) (s3 : S3Storage) (b : String)
        (ctx : Context) (key : String),
        (Driver.mk kvs (Storage.s3 s3) true b).URL ctx key = none) :=
  ⟨fun _ _ _ _ _ _ => rfl, fun _ _ _ _ _ => rfl, fun _ _ _ _ _ => rfl⟩

/-- C3: `URL` never surfaces a presign failure: when the client's presign
call for the key returns an error — with a nil URL, as the minio contract
guarantees alongside any error — `URL` returns nil, for either proxy
setting. -/
theorem URL_swallows_presign_failure (kvs : Option KVStore) (c : S3Client)
    (b : String) (ctx : Context) (key : String) (p : Bool) (e : GoError)
    (hfail : c.presign ctx b key timeHour
        [("response-content-type", [mimeTypeByExtension (pathExt key)])]
      = (none, some e)) :
    (Driver.mk kvs (Storage.s3 ⟨c⟩) p b).URL ctx key = none := by
  cases p
  · simp [Driver.URL, hfail]
  · rfl

/-- Witness for C3: a client that fails as if the context were cancelled. -/
theorem URL_swallows_presign_failure_witness :
    (Driver.mk none (Storage.s3 ⟨testPresignFail⟩) false "media").URL
      ⟨true⟩ "avatars/foo.jpg" = none :=
  URL_swallows_presign_failure none testPresignFail "media" ⟨true⟩
    "avatars/foo.jpg" false (GoError.msg "context canceled") rfl

/-- C4: an unrecognized backend selector makes `AutoConfig` fail with the
"invalid storage backend" error naming the value, identically for every
collaborator — so neither backend opener is consulted and no handle or
lock file is created. -/
theorem autoConfig_invalid_backend (cfg : Config)
    (h1 : cfg.backend ≠ "s3") (h2 : cfg.backend ≠ "local") :
    ∀ (f : OpenS3Fn) (g : OpenDiskFn),
      autoConfig cfg f g =
        Except.error
          (GoError.msg ("invalid storage backend: " ++ cfg.backend)) := by
  intro f g
  simp [autoConfig, autoConfigStorage, h1, h2]

/-- Witness for C4: the selector `"azure"`. -/
theorem autoConfig_invalid_backend_witness :
    autoConfig ⟨"azure", "", "", "", false, "", false, ""⟩
        testOpenS3 testOpenDisk =
      Except.error (GoError.msg ("invalid storage backend: " ++ "azure")) :=
  autoConfig_invalid_backend ⟨"azure", "", "", "", false, "", false, ""⟩
    (by decide) (by decide) testOpenS3 testOpenDisk

/-- C5: with backend "local", `AutoConfig` opens the disk storage on
exactly the configured base path with the lock file at the path join of
the base path and "store.lock", wrapping the opened handle into the
driver; concretely, base path `/gotosocial/storage` places the lock at
`/gotosocial/storage/store.lock`. -/
theorem autoConfig_local_lockfile (cfg : Config) (h : cfg.backend = "local")
    (f : OpenS3Fn) (g : OpenDiskFn) :
    (autoConfig cfg f g =
      match g cfg.localBasePath
          { lockFile := pathJoin [cfg.localBasePath, "store.lock"] } with
        | Except.error err =>
          Except.error (GoError.wrap "error opening disk storage" err)
        | Except.ok disk =>
          Except.ok
            { KVStore := some (kvNew (Storage.disk disk))
            , Proxy := cfg.s3Proxy
            , Bucket := cfg.s3BucketName
            , Storage := Storage.disk disk })
    ∧ pathJoin ["/gotosocial/storage", "store.lock"]
        = "/gotosocial/storage/store.lock" := by
  refine ⟨?_, by decide⟩
  simp only [autoConfig, autoConfigStorage, h]
  norm_num
  cases g cfg.localBasePath
    { lockFile := pathJoin [cfg.localBasePath, "store.lock"] } <;> rfl

/-- Witness for C5: a disk opener that only accepts the expected base path
and lock-file location. -/
theorem autoConfig_local_lockfile_witness :
    autoConfig cfgLocal testOpenS3 testOpenDiskCheck =
      Except.ok
        { KVStore := some (kvNew (Storage.disk ⟨7⟩))
        , Proxy := true
        , Bucket := "gts"
        , Storage := Storage.disk ⟨7⟩ } := by
  have h := autoConfig_local_lockfile cfgLocal rfl testOpenS3 testOpenDiskCheck
  rw [h.1]
  rfl

/-- C6: with backend "s3", `AutoConfig` opens the S3 storage on exactly
the configured endpoint and bucket with static credentials from the
configured access and secret keys, the configured TLS flag, a fixed 5 MiB
multipart put chunk size, and a fixed 200-entry listing page size,
wrapping the opened handle into the driver. -/
theorem autoConfig_s3_config (cfg : Config) (h : cfg.backend = "s3")
    (f : OpenS3Fn) (g : OpenDiskFn) :
    autoConfig cfg f g =
      match f cfg.s3Endpoint cfg.s3BucketName
          { credsAccessKeyID := cfg.s3AccessKey
          , credsSecretAccessKey := cfg.s3SecretKey
          , credsSessionToken := ""
          , secure := cfg.s3UseSSL
          , putChunkSize := 5 * 1024 * 1024
          , listSize := 200 } with
        | Except.error err =>
          Except.error (GoError.wrap "error opening s3 storage" err)
        | Except.ok s3 =>
          Except.ok
            { KVStore := some (kvNew (Storage.s3 s3))
            , Proxy := cfg.s3Proxy
            , Bucket := cfg.s3BucketName
            , Storage := Storage.s3 s3 } := by
  simp only [autoConfig, autoConfigStorage, h]
  cases f cfg.s3Endpoint cfg.s3BucketName
      { credsAccessKeyID := cfg.s3AccessKey
      , credsSecretAccessKey := cfg.s3SecretKey
      , credsSessionToken := ""
      , secure := cfg.s3UseSSL
      , putChunkSize := 5 * 1024 * 1024
      , listSize := 200 } <;> rfl

/-- Witness for C6: an S3 opener that only accepts the expected endpoint,
bucket, credentials, TLS flag, 5242880-byte chunk size and 200-entry page
size. -/
theorem autoConfig_s3_config_witness :
    autoConfig cfgS3 testOpenS3Check testOpenDisk =
      Except.ok
        { KVStore := some (kvNew (Storage.s3 ⟨testPresignOk⟩))
        , Proxy := false
        , Bucket := "media"
        , Storage := Storage.s3 ⟨testPresignOk⟩ } := by
  have h := autoConfig_s3_config cfgS3 rfl testOpenS3Check testOpenDisk
  rw [h]
  rfl

/-- C7: when opening the chosen backend fails, `AutoConfig` returns no
driver and surfaces the collaborator's error wrapped with the context
"error opening s3 storage" or "error opening disk storage", whose
rendered message carries that text, a colon and a space, and then the
inner error's message. -/
theorem autoConfig_wraps_open_errors (cfg : Config) (f : OpenS3Fn)
    (g : OpenDiskFn) (e : GoError) :
    (cfg.backend = "s3" →
      f cfg.s3Endpoint cfg.s3BucketName
          { credsAccessKeyID := cfg.s3AccessKey
          , credsSecretAccessKey := cfg.s3SecretKey
          , credsSessionToken := ""
          , secure := cfg.s3UseSSL
          , putChunkSize := 5 * 1024 * 1024
          , listSize := 200 } = Except.error e →
        autoConfig cfg f g
            = Except.error (GoError.wrap "error opening s3 storage" e)
          ∧ (GoError.wrap "error opening s3 storage" e).message
            = "error opening s3 storage: " ++ e.message)
    ∧ (cfg.backend = "local" →
      g cfg.localBasePath
          { lockFile := pathJoin [cfg.localBasePath, "store.lock"] }
        = Except.error e →
        autoConfig cfg f g
            = Except.error (GoError.wrap "error opening disk storage" e)
          ∧ (GoError.wrap "error opening disk storage" e).message
            = "error opening disk storage: " ++ e.message) := by
  constructor
  · intro h hf
    rw [autoConfig_s3_config cfg h f g, hf]
    exact ⟨rfl, rfl⟩
  · intro h hg
    rw [(autoConfig_local_lockfile cfg h f g).1, hg]
    exact ⟨rfl, rfl⟩

/-- Witness for C7: failing openers on both backends. -/
theorem autoConfig_wraps_open_errors_witness :
    autoConfig cfgS3
        (fun _ _ _ => Except.error (GoError.msg "connection refused"))
        testOpenDisk
      = Except.error
          (GoError.wrap "error opening s3 storage"
            (GoError.msg "connection refused"))
    ∧ autoConfig cfgLocal testOpenS3
        (fun _ _ => Except.error (GoError.msg "permission denied"))
      = Except.error
          (GoError.wrap "error opening disk storage"
            (GoError.msg "permission denied")) :=
  ⟨((autoConfig_wraps_open_errors cfgS3
      (fun _ _ _ => Except.error (GoError.msg "connection refused"))
      testOpenDisk (GoError.msg "connection refused")).1 rfl rfl).1,
   ((autoConfig_wraps_open_errors cfgLocal testOpenS3
      (fun _ _ => Except.error (GoError.msg "permission denied"))
      (GoError.msg "permission denied")).2 rfl rfl).1⟩

/-- C8: every successful `AutoConfig` returns a driver whose key-value
store wraps exactly the backend handle held in its `Storage` field — the
handle chosen and opened by the backend switch — and whose `Proxy` and
`Bucket` fields are the configured S3 proxy flag and bucket name, for
both backends. -/
theorem autoConfig_success_fields (cfg : Config) (f : OpenS3Fn)
    (g : OpenDiskFn) (d : Driver)
    (h : autoConfig cfg f g = Except.ok d) :
    (∃ st, autoConfigStorage cfg f g = Except.ok st ∧ d.Storage = st)
    ∧ d.KVStore = some (kvNew d.Storage)
    ∧ d.Proxy = cfg.s3Proxy
    ∧ d.Bucket = cfg.s3BucketName := by
  unfold autoConfig at h
  cases hst : autoConfigStorage cfg f g with
  | error e =>
    rw [hst] at h
    cases h
  | ok st =>
    rw [hst] at h
    injection h with h2
    subst h2
    exact ⟨⟨st, rfl, rfl⟩, rfl, rfl, rfl⟩

/-- Witness for C8: a successful local-backend construction. -/
theorem autoConfig_success_fields_witness :
    (∃ st, autoConfigStorage cfgLocal testOpenS3 testOpenDisk
        = Except.ok st
      ∧ (Driver.mk (some (kvNew (Storage.disk ⟨0⟩))) (Storage.disk ⟨0⟩)
          true "gts").Storage = st)
    ∧ (Driver.mk (some (kvNew (Storage.disk ⟨0⟩))) (Storage.disk ⟨0⟩)
        true "gts").KVStore
      = some (kvNew (Driver.mk (some (kvNew (Storage.disk ⟨0⟩)))
          (Storage.disk ⟨0⟩) true "gts").Storage)
    ∧ (Driver.mk (some (kvNew (Storage.disk ⟨0⟩))) (Storage.disk ⟨0⟩)
        true "gts").Proxy = cfgLocal.s3Proxy
    ∧ (Driver.mk (some (kvNew (Storage.disk ⟨0⟩))) (Storage.disk ⟨0⟩)
        true "gts").Bucket = cfgLocal.s3BucketName :=
  autoConfig_success_fields cfgLocal testOpenS3 testOpenDisk
    (Driver.mk (some (kvNew (Storage.disk ⟨0⟩))) (Storage.disk ⟨0⟩)
      true "gts") rfl

/-- C9: `URL` on a driver holding no S3 backend in its `Storage` field —
a disk handle, or the nil interface, and in particular the zero-value
driver whose key-value store pointer is also nil — returns nil totally,
for every context and key, without consulting any backend. -/
theorem URL_nil_storage_safe :
    (∀ (kvs : Option KVStore) (dsk : DiskStorage) (p : Bool) (b : String)
        (ctx : Context) (key : String),
        (Driver.mk kvs (Storage.disk dsk) p b).URL ctx key = none)
    ∧ (∀ (kvs : Option KVStore) (p : Bool) (b : String) (ctx : Context)
        (key : String),
        (Driver.mk kvs Storage.null p b).URL ctx key = none)
    ∧ (∀ (ctx : Context) (key : String), zeroDriver.URL ctx key = none) :=
  ⟨fun _ _ _ _ _ _ => rfl, fun _ _ _ _ _ => rfl, fun _ _ => rfl⟩

/-- C10: with backend "local", the result of `AutoConfig` is independent
of the S3 endpoint, access key, secret key, and TLS flag: two
configurations agreeing on the backend, base path, proxy flag and bucket
name produce identical results for any collaborators, however the four
S3 connection values differ. -/
theorem autoConfig_local_ignores_s3_connection
    (c1 c2 : Config) (f : OpenS3Fn) (g : OpenDiskFn)
    (hb1 : c1.backend = "local") (hb2 : c2.backend = "local")
    (hbp : c1.localBasePath = c2.localBasePath)
    (hpx : c1.s3Proxy = c2.s3Proxy)
    (hbk : c1.s3BucketName = c2.s3BucketName) :
    autoConfig c1 f g = autoConfig c2 f g := by
  rw [(autoConfig_local_lockfile c1 hb1 f g).1,
    (autoConfig_local_lockfile c2 hb2 f g).1, hbp, hpx, hbk]

/-- Witness for C10: two local configurations differing in all four S3
connection values. -/
theorem autoConfig_local_ignores_s3_connection_witness :
    autoConfig cfgLocalA testOpenS3 testOpenDisk
      = autoConfig cfgLocalB testOpenS3 testOpenDisk :=
  autoConfig_local_ignores_s3_connection cfgLocalA cfgLocalB
    testOpenS3 testOpenDisk rfl rfl rfl rfl rfl

end GtsStorage
